import Mathlib

/-!
Verification of the Space Invaders simulation core.

Shallow embedding of the game class in `src/game.ts` (`SpaceInvadersGame`):
the mutable class fields become a `GameState` record, each private method
becomes a state-to-state function, and the keyboard handlers plus the
per-frame `update(deltaTime)` become an `Event`-labelled step function.
All JS numbers of the simulation are integers on the 60×40 grid, embedded
as `Int` (score and high score, which only ever grow, as `Nat`).
-/

namespace SpaceInvaders

/-- Grid width W (source: `GRID_WIDTH = 60`). -/
def GRID_WIDTH : Int := 60

/-- Grid height H (source: `GRID_HEIGHT = 40`). -/
def GRID_HEIGHT : Int := 40

/-- A grid position (source: `Point`). -/
structure Point where
  x : Int
  y : Int
deriving DecidableEq, Repr

/-- A bullet (source: `interface Bullet`). -/
structure Bullet where
  x : Int
  y : Int
  isPlayerBullet : Bool
deriving DecidableEq, Repr

/-- An invader (source: `interface Invader`); `type` is the tier 0/1/2. -/
structure Invader where
  x : Int
  y : Int
  type : Nat
  alive : Bool
deriving DecidableEq, Repr

/-- One destructible barrier segment (source: `interface Barrier`). -/
structure Barrier where
  x : Int
  y : Int
  health : Int
deriving DecidableEq, Repr

/-- The mutable fields of `SpaceInvadersGame` that the simulation touches.
Rendering/audio handles are omitted: they never feed back into this state. -/
structure GameState where
  player : Point
  invaders : List Invader
  bullets : List Bullet
  barriers : List Barrier
  score : Nat
  lives : Int
  gameOver : Bool
  paused : Bool
  started : Bool
  level : Nat
  highScore : Nat
  invaderMoveTimer : Int
  invaderMoveInterval : Int
  invaderDirection : Int
  shootCooldown : Int
  enemyShootTimer : Int
deriving DecidableEq, Repr

/-- One frame's worth of sampled input.  `gpLeft`/`gpRight` stand for the
stick/d-pad threshold tests, `gpShoot`/`gpPause`/`gpRestart` for
`justPressed(0/9/1)`, `kbDir` for `keyboard.getDirection().x`, and `rand`
resolves `Math.random()` in `enemyShoot` (index into the alive list). -/
structure Input where
  connected : Bool
  gpLeft : Bool
  gpRight : Bool
  gpShoot : Bool
  gpPause : Bool
  gpRestart : Bool
  kbDir : Int
  rand : Nat
deriving DecidableEq, Repr

/-- The 5×11 wave built by `spawnInvaders`: rows at y = 5 + 3·row, columns at
x = 10 + 4·col; top row tier 2, next two rows tier 1, bottom rows tier 0. -/
def spawnGrid : List Invader :=
  (List.range 5).flatMap (fun row =>
    (List.range 11).map (fun col =>
      { x := 10 + 4 * (col : Int), y := 5 + 3 * (row : Int),
        type := if row < 1 then 2 else if row < 3 then 1 else 0,
        alive := true }))

/-- `spawnInvaders()`: fresh wave, interval `max(300, 800 - level*100)`,
direction reset to +1. -/
def spawnInvaders (s : GameState) : GameState :=
  { s with invaders := spawnGrid,
           invaderMoveInterval := max 300 (800 - (s.level : Int) * 100),
           invaderDirection := 1 }

/-- The 4×(6×3) barrier segment grid built by `spawnBarriers`. -/
def barrierGrid : List Barrier :=
  ([10, 22, 34, 46] : List Int).flatMap (fun baseX =>
    (List.range 3).flatMap (fun y =>
      (List.range 6).map (fun x =>
        { x := baseX + (x : Int), y := (GRID_HEIGHT - 10) + (y : Int),
          health := 3 })))

/-- `spawnBarriers()`. -/
def spawnBarriers (s : GameState) : GameState :=
  { s with barriers := barrierGrid }

/-- `initGame()`: resets player/lives/score/level/flags/bullets and respawns
invaders and barriers.  Note it does not touch `highScore` nor any timer. -/
def initGame (s : GameState) : GameState :=
  spawnBarriers (spawnInvaders
    { s with player := { x := GRID_WIDTH / 2, y := GRID_HEIGHT - 3 },
             lives := 3, score := 0, level := 1,
             gameOver := false, paused := false, started := false,
             bullets := [] })

/-- The state right after the constructor ran (field initializers, then
`initGame()`). -/
def mkInitial : GameState :=
  initGame
    { player := { x := 0, y := 0 }, invaders := [], bullets := [],
      barriers := [], score := 0, lives := 3, gameOver := false,
      paused := false, started := false, level := 1, highScore := 0,
      invaderMoveTimer := 0, invaderMoveInterval := 800,
      invaderDirection := 1, shootCooldown := 0, enemyShootTimer := 0 }

/-- `shootBullet()`: spawn a player bullet one row above the player and arm
the 300ms cooldown, but only when the cooldown has fully elapsed. -/
def shootBullet (s : GameState) : GameState :=
  if s.shootCooldown ≤ 0 then
    { s with
        bullets := s.bullets ++
          [{ x := s.player.x, y := s.player.y - 1, isPlayerBullet := true }],
        shootCooldown := 300 }
  else s

/-- Fallback invader used to express JS array indexing totally; it is never
reached, because the index is taken modulo the (positive) list length. -/
def dummyInvader : Invader := { x := 0, y := 0, type := 0, alive := false }

/-- `enemyShoot()`: a random alive invader fires one bullet one row below
itself; no-op when no invader is alive. -/
def enemyShoot (rand : Nat) (s : GameState) : GameState :=
  let aliveInvaders := s.invaders.filter (fun inv => inv.alive)
  if aliveInvaders.length = 0 then s
  else
    let shooter := aliveInvaders.getD (rand % aliveInvaders.length) dummyInvader
    { s with bullets := s.bullets ++
        [{ x := shooter.x, y := shooter.y + 1, isPlayerBullet := false }] }

/-- The per-invader edge test inside `moveInvaders`. -/
def atEdge (dir : Int) (inv : Invader) : Bool :=
  (dir == 1 && decide (inv.x ≥ GRID_WIDTH - 3)) ||
  (dir == -1 && decide (inv.x ≤ 1))

/-- Whether the formation step about to happen is a drop: some alive invader
is at the edge in the current direction (`shouldDrop` in the source). -/
def edgeTriggered (s : GameState) : Bool :=
  (s.invaders.filter (fun inv => inv.alive)).any (atEdge s.invaderDirection)

/-- `moveInvaders(deltaTime)`: accumulate the formation clock; on expiry do
one atomic step (drop-and-reverse if any alive invader is at the edge, else
slide one cell), then run the reached-the-player loss check.  The source's
loss loop iterates the pre-step alive list, but those objects were mutated
in place, so it reads post-step coordinates; the alive flags are untouched
by the step, so filtering the post-step list is the same set. -/
def moveInvaders (dt : Int) (s : GameState) : GameState :=
  if s.invaderMoveTimer + dt ≥ s.invaderMoveInterval then
    let invaders' :=
      if edgeTriggered s then
        s.invaders.map (fun inv =>
          if inv.alive then { inv with y := inv.y + 2 } else inv)
      else
        s.invaders.map (fun inv =>
          if inv.alive then { inv with x := inv.x + s.invaderDirection } else inv)
    let dir' := if edgeTriggered s then -s.invaderDirection else s.invaderDirection
    let reached := (invaders'.filter (fun inv => inv.alive)).any
        (fun inv => decide (inv.y ≥ s.player.y - 1))
    { s with invaderMoveTimer := 0, invaders := invaders',
             invaderDirection := dir',
             lives := if reached then 0 else s.lives,
             gameOver := if reached then true else s.gameOver }
  else
    { s with invaderMoveTimer := s.invaderMoveTimer + dt }

/-- Per-frame bullet advancement: player bullets up, enemy bullets down. -/
def moveBullet (b : Bullet) : Bullet :=
  if b.isPlayerBullet then { b with y := b.y - 1 } else { b with y := b.y + 1 }

/-- The bullet-vs-invader hit test (3-cell-wide hitbox, exact row). -/
def bulletHitsInvader (b : Bullet) (inv : Invader) : Bool :=
  inv.alive && decide ((b.x - inv.x).natAbs ≤ 1) && (b.y == inv.y)

/-- The inner invader loop for one player bullet: find the first alive
invader hit (in list order), flip it dead and report the score gain;
`none` when the bullet misses everything. -/
def killFirstHit (b : Bullet) : List Invader → Option (List Invader × Nat)
  | [] => none
  | inv :: rest =>
    if bulletHitsInvader b inv then
      some ({ inv with alive := false } :: rest, (inv.type + 1) * 10)
    else
      match killFirstHit b rest with
      | some (rest', pts) => some (inv :: rest', pts)
      | none => none

/-- The bullet-vs-invader phase of `updateBullets`.  The source iterates
`i` from the last bullet down to 0 and splices hits out, so the last bullet
is resolved first; the recursion therefore threads the invader list and
score through the tail before handling the head.  Returns the surviving
bullets (in order), the updated invaders, and the updated score. -/
def invaderPass : List Bullet → List Invader → Nat →
    List Bullet × List Invader × Nat
  | [], invs, sc => ([], invs, sc)
  | b :: rest, invs, sc =>
    let r := invaderPass rest invs sc
    if b.isPlayerBullet then
      match killFirstHit b r.2.1 with
      | some (invs', pts) => (r.1, invs', r.2.2 + pts)
      | none => (b :: r.1, r.2.1, r.2.2)
    else (b :: r.1, r.2.1, r.2.2)

/-- The inner barrier loop for one bullet: the source scans `j` from the
last segment downward and breaks on the first exact-cell match, so the
recursion tries the tail (later segments) first.  On a hit the segment
loses one health and is removed when that reaches 0; `none` means no
segment was hit (bullet survives). -/
def damageLastHit (b : Bullet) : List Barrier → Option (List Barrier)
  | [] => none
  | bar :: rest =>
    match damageLastHit b rest with
    | some rest' => some (bar :: rest')
    | none =>
      if b.x == bar.x && b.y == bar.y then
        some (if bar.health - 1 ≤ 0 then rest
              else { bar with health := bar.health - 1 } :: rest)
      else none

/-- The bullet-vs-barrier phase of `updateBullets` (both owners), last
bullet resolved first, threading the barrier list. -/
def barrierPass : List Bullet → List Barrier → List Bullet × List Barrier
  | [], bars => ([], bars)
  | b :: rest, bars =>
    let r := barrierPass rest bars
    match damageLastHit b r.2 with
    | some bars' => (r.1, bars')
    | none => (b :: r.1, r.2)

/-- The bullet-vs-player hit test (enemy bullets only). -/
def bulletHitsPlayer (p : Point) (b : Bullet) : Bool :=
  !b.isPlayerBullet && decide ((b.x - p.x).natAbs ≤ 1) && (b.y == p.y)

/-- The bullet-vs-player phase of `updateBullets`: every hitting enemy
bullet is consumed and decrements lives by one (no stop at zero); the
game-over flag is raised as soon as lives is ≤ 0. -/
def playerPass (p : Point) : List Bullet → Int → Bool →
    List Bullet × Int × Bool
  | [], lv, go => ([], lv, go)
  | b :: rest, lv, go =>
    let r := playerPass p rest lv go
    if bulletHitsPlayer p b then
      (r.1, r.2.1 - 1, if r.2.1 - 1 ≤ 0 then true else r.2.2)
    else (b :: r.1, r.2.1, r.2.2)

/-- `updateBullets()`: advance all bullets one cell, prune off-screen ones,
then run the three collision phases in the source's fixed order
(invaders, barriers, player). -/
def updateBullets (s : GameState) : GameState :=
  let pruned := (s.bullets.map moveBullet).filter
      (fun b => decide (0 ≤ b.y) && decide (b.y < GRID_HEIGHT))
  let r1 := invaderPass pruned s.invaders s.score
  let r2 := barrierPass r1.1 s.barriers
  let r3 := playerPass s.player r2.1 s.lives s.gameOver
  { s with bullets := r3.1, invaders := r1.2.1, score := r1.2.2,
           barriers := r2.2, lives := r3.2.1, gameOver := r3.2.2 }

/-- Number of alive invaders. -/
def aliveCount (invs : List Invader) : Nat :=
  (invs.filter (fun inv => inv.alive)).length

/-- `checkLevelComplete()`: when no invader is alive, bump the level, spawn
the next wave (with its recomputed interval) and fresh barriers, and drop
every in-flight bullet. -/
def checkLevelComplete (s : GameState) : GameState :=
  if aliveCount s.invaders = 0 then
    { spawnBarriers (spawnInvaders { s with level := s.level + 1 }) with
        bullets := [] }
  else s

/-- The `startGame` closure shared by the input handlers. -/
def startGame (s : GameState) : GameState :=
  if !s.started && !s.gameOver then { s with started := true } else s

/-- The `togglePause` closure (P key / start button). -/
def togglePause (s : GameState) : GameState :=
  if s.started && !s.gameOver then { s with paused := !s.paused } else s

/-- The gamepad movement block: left wins over right (else-if in the
source), each move is clamp-guarded and followed by `startGame`. -/
def gpMove (inp : Input) (s : GameState) : GameState :=
  if inp.gpLeft then
    startGame (if s.player.x > 1 then
      { s with player := { s.player with x := s.player.x - 2 } } else s)
  else if inp.gpRight then
    startGame (if s.player.x < GRID_WIDTH - 2 then
      { s with player := { s.player with x := s.player.x + 2 } } else s)
  else s

/-- The gamepad A-button block: fire when in active play, then `startGame`. -/
def gpShootStep (inp : Input) (s : GameState) : GameState :=
  if inp.gpShoot then
    startGame (if s.started && !s.gameOver && !s.paused then shootBullet s else s)
  else s

/-- The gamepad start-button block. -/
def gpPauseStep (inp : Input) (s : GameState) : GameState :=
  if inp.gpPause then togglePause s else s

/-- The gamepad B-button block: restart after game over. -/
def gpRestartStep (inp : Input) (s : GameState) : GameState :=
  if inp.gpRestart then (if s.gameOver then initGame s else s) else s

/-- `handleGamepadInput()`: movement, shoot, pause toggle, restart, in
source order; skipped entirely when no gamepad is connected. -/
def handleGamepadInput (inp : Input) (s : GameState) : GameState :=
  if !inp.connected then s
  else gpRestartStep inp (gpPauseStep inp (gpShootStep inp (gpMove inp s)))

/-- Keyboard movement starts the game on any nonzero direction. -/
def kbStart (s : GameState) : GameState :=
  if !s.started && !s.gameOver then { s with started := true } else s

/-- The clamp-guarded keyboard left move. -/
def kbLeft (dir : Int) (s : GameState) : GameState :=
  if dir < 0 ∧ s.player.x > 1 then
    { s with player := { s.player with x := s.player.x - 2 } } else s

/-- The clamp-guarded keyboard right move. -/
def kbRight (dir : Int) (s : GameState) : GameState :=
  if dir > 0 ∧ s.player.x < GRID_WIDTH - 2 then
    { s with player := { s.player with x := s.player.x + 2 } } else s

/-- The keyboard-movement block at the top of `update`. -/
def kbMove (dir : Int) (s : GameState) : GameState :=
  if dir ≠ 0 then kbRight dir (kbLeft dir (kbStart s)) else s

/-- The input section of `update` (gamepad first, then keyboard). -/
def frameInput (inp : Input) (s : GameState) : GameState :=
  kbMove inp.kbDir (handleGamepadInput inp s)

/-- The cooldown decay at the top of the active frame. -/
def cooldownStep (dt : Int) (s : GameState) : GameState :=
  if s.shootCooldown > 0 then
    { s with shootCooldown := s.shootCooldown - dt } else s

/-- The enemy-fire timer of `update`: accumulate `deltaTime`; on expiry
reset to 0 and let a random invader fire. -/
def enemyShootStep (dt : Int) (rand : Nat) (s : GameState) : GameState :=
  if s.enemyShootTimer + dt ≥ 1500 then
    enemyShoot rand { s with enemyShootTimer := 0 }
  else { s with enemyShootTimer := s.enemyShootTimer + dt }

/-- The high-score refresh at the end of the active frame. -/
def highScoreStep (s : GameState) : GameState :=
  if s.score > s.highScore then { s with highScore := s.score } else s

/-- The simulation section of `update`, run only on active frames:
cooldown decay, formation movement, enemy fire, bullets/collisions,
level-complete check, high-score update, in source order. -/
def simulate (dt : Int) (rand : Nat) (s : GameState) : GameState :=
  highScoreStep (checkLevelComplete (updateBullets
    (enemyShootStep dt rand (moveInvaders dt (cooldownStep dt s)))))

/-- `update(deltaTime)`: input handling always runs; the simulation is
skipped when the game is not started, over, or paused — note the skip test
reads the flags as left by this frame's input handling. -/
def update (dt : Int) (inp : Input) (s : GameState) : GameState :=
  let s1 := frameInput inp s
  if !s1.started || s1.gameOver || s1.paused then s1
  else simulate dt inp.rand s1

/-- One externally observable event: a scheduler frame, or one of the three
keyboard handlers registered in `setupInput` (Space fires then starts,
P toggles pause, R restarts after game over). -/
inductive Event where
  | frame (dt : Int) (inp : Input)
  | keyShoot
  | keyPauseToggle
  | keyRestart
deriving DecidableEq, Repr

/-- The labelled transition of the whole game. -/
def step (s : GameState) : Event → GameState
  | .frame dt inp => update dt inp s
  | .keyShoot =>
      startGame (if s.started && !s.gameOver && !s.paused then shootBullet s else s)
  | .keyPauseToggle => togglePause s
  | .keyRestart => if s.gameOver then initGame s else s

/-- Run a sequence of events from a state. -/
def runEvents (s : GameState) : List Event → GameState
  | [] => s
  | e :: es => runEvents (step s e) es

/-- Input with nothing pressed. -/
def quietInput : Input :=
  { connected := false, gpLeft := false, gpRight := false, gpShoot := false,
    gpPause := false, gpRestart := false, kbDir := 0, rand := 0 }

/-- Input holding only keyboard-left. -/
def leftInput : Input := { quietInput with kbDir := -1 }

/-- A quiet frame carrying a given delta time and random draw. -/
def quietFrame (dt : Int) (rand : Nat) : Event :=
  .frame dt { quietInput with rand := rand }

/-- Fifteen frames of keyboard-left from a fresh game: enough to walk the
player from the spawn column 30 down to column 0. -/
def c1Events : List Event := List.replicate 15 (.frame 0 leftInput)

/-- Start the game, then pause it (P key). -/
def pauseEvents : List Event := [.keyShoot, .keyPauseToggle]

/-- The started-and-paused state those two key presses produce. -/
def pausedDemo : GameState := runEvents mkInitial pauseEvents

/-- A played-out schedule in which two enemy bullets, fired three frames
apart from the rows y=14 and y=17 of the same column, reach the player's
row in the same frame after two earlier single hits: slide-only formation
steps keep the shooters' columns aligned with the player, and the chosen
`rand` draws pick the shooters.  The final frame resolves both hits. -/
def c4Events : List Event :=
  [.keyShoot, quietFrame 1500 49]
  ++ List.replicate 18 (quietFrame 0 0)
  ++ [quietFrame 800 0, quietFrame 800 48]
  ++ List.replicate 18 (quietFrame 0 0)
  ++ [quietFrame 1500 37]
  ++ List.replicate 2 (quietFrame 0 0)
  ++ [quietFrame 1500 48]
  ++ List.replicate 18 (quietFrame 0 0)

/-- Start; fire (spawns a bullet, arms the 300ms cooldown); let 100ms pass;
fire again inside the cooldown window. -/
def c6Events : List Event :=
  [.keyShoot, .keyShoot, .frame 100 quietInput, .keyShoot]

/-- A small formation with one alive invader on the right edge (x = 57)
while moving right, ready for a triggered step. -/
def demoEdgeState : GameState :=
  { mkInitial with
      invaders :=
        [ { x := 57, y := 10, type := 0, alive := true },
          { x := 53, y := 10, type := 1, alive := true },
          { x := 41, y := 13, type := 2, alive := false } ],
      invaderMoveTimer := 0, invaderMoveInterval := 700,
      invaderDirection := 1 }

/-- A state whose wave has been fully cleared. -/
def clearedWaveState : GameState :=
  { mkInitial with
      invaders := mkInitial.invaders.map (fun inv => { inv with alive := false }),
      bullets := [{ x := 30, y := 20, isPlayerBullet := true }] }

/-- Two in-flight bullets (one per owner) used to instantiate the
collision-pass theorems on concrete data. -/
def demoBullets : List Bullet :=
  [ { x := 30, y := 5, isPlayerBullet := true },
    { x := 12, y := 30, isPlayerBullet := false } ]

/-- Total health over a barrier list: the measure each resolved barrier hit
decreases by exactly one while every segment's health is positive. -/
def healthSum (bars : List Barrier) : Int :=
  (bars.map (fun bar => bar.health)).sum

/-- The largest score along a run: the score of the start state and of every
state an event of the list leads through. -/
def traceHigh (s : GameState) : List Event → Nat
  | [] => s.score
  | e :: es => max s.score (traceHigh (step s e) es)

/-- Does this event restart the game from `s` (R key, or gamepad B, at game
over)?  These are the only transitions that reset the score. -/
def isRestartEvent (s : GameState) : Event → Bool
  | .frame _ inp => s.gameOver && inp.connected && inp.gpRestart
  | .keyRestart => s.gameOver
  | _ => false

/-- The inductive state invariant behind C1, C4 and C9: the player stays on
an even column of [0, 58], lives never exceeds 3, pausing needs a started
game, and a paused game is never simultaneously over. -/
def StateInv (s : GameState) : Prop :=
  0 ≤ s.player.x ∧ s.player.x ≤ 58 ∧ s.player.x % 2 = 0 ∧
  s.lives ≤ 3 ∧
  (s.paused = true → s.started = true) ∧
  (s.paused = false ∨ s.gameOver = false)

/-- The score/high-score invariant behind C7. -/
def ScoreInv (s : GameState) : Prop := s.score ≤ s.highScore

/-! ### Field-preservation lemmas for the individual methods -/

@[simp] theorem moveInvaders_player (dt : Int) (s : GameState) :
    (moveInvaders dt s).player = s.player := by
  unfold moveInvaders; split <;> rfl

@[simp] theorem moveInvaders_started (dt : Int) (s : GameState) :
    (moveInvaders dt s).started = s.started := by
  unfold moveInvaders; split <;> rfl

@[simp] theorem moveInvaders_paused (dt : Int) (s : GameState) :
    (moveInvaders dt s).paused = s.paused := by
  unfold moveInvaders; split <;> rfl

@[simp] theorem moveInvaders_score (dt : Int) (s : GameState) :
    (moveInvaders dt s).score = s.score := by
  unfold moveInvaders; split <;> rfl

@[simp] theorem moveInvaders_highScore (dt : Int) (s : GameState) :
    (moveInvaders dt s).highScore = s.highScore := by
  unfold moveInvaders; split <;> rfl

@[simp] theorem moveInvaders_level (dt : Int) (s : GameState) :
    (moveInvaders dt s).level = s.level := by
  unfold moveInvaders; split <;> rfl

@[simp] theorem moveInvaders_shootCooldown (dt : Int) (s : GameState) :
    (moveInvaders dt s).shootCooldown = s.shootCooldown := by
  unfold moveInvaders; split <;> rfl

@[simp] theorem moveInvaders_enemyShootTimer (dt : Int) (s : GameState) :
    (moveInvaders dt s).enemyShootTimer = s.enemyShootTimer := by
  unfold moveInvaders; split <;> rfl

@[simp] theorem moveInvaders_bullets (dt : Int) (s : GameState) :
    (moveInvaders dt s).bullets = s.bullets := by
  unfold moveInvaders; split <;> rfl

@[simp] theorem moveInvaders_barriers (dt : Int) (s : GameState) :
    (moveInvaders dt s).barriers = s.barriers := by
  unfold moveInvaders; split <;> rfl

theorem moveInvaders_lives (dt : Int) (s : GameState) :
    (moveInvaders dt s).lives = 0 ∨ (moveInvaders dt s).lives = s.lives := by
  unfold moveInvaders
  split
  · dsimp only
    exact ite_eq_or_eq _ _ _
  · exact Or.inr rfl

@[simp] theorem updateBullets_player (s : GameState) :
    (updateBullets s).player = s.player := rfl

@[simp] theorem updateBullets_started (s : GameState) :
    (updateBullets s).started = s.started := rfl

@[simp] theorem updateBullets_paused (s : GameState) :
    (updateBullets s).paused = s.paused := rfl

@[simp] theorem updateBullets_level (s : GameState) :
    (updateBullets s).level = s.level := rfl

@[simp] theorem updateBullets_highScore (s : GameState) :
    (updateBullets s).highScore = s.highScore := rfl

@[simp] theorem updateBullets_invaderMoveTimer (s : GameState) :
    (updateBullets s).invaderMoveTimer = s.invaderMoveTimer := rfl

@[simp] theorem updateBullets_invaderMoveInterval (s : GameState) :
    (updateBullets s).invaderMoveInterval = s.invaderMoveInterval := rfl

@[simp] theorem updateBullets_invaderDirection (s : GameState) :
    (updateBullets s).invaderDirection = s.invaderDirection := rfl

@[simp] theorem updateBullets_shootCooldown (s : GameState) :
    (updateBullets s).shootCooldown = s.shootCooldown := rfl

@[simp] theorem updateBullets_enemyShootTimer (s : GameState) :
    (updateBullets s).enemyShootTimer = s.enemyShootTimer := rfl

@[simp] theorem enemyShoot_player (rand : Nat) (s : GameState) :
    (enemyShoot rand s).player = s.player := by
  unfold enemyShoot; dsimp only; split <;> rfl

@[simp] theorem enemyShoot_started (rand : Nat) (s : GameState) :
    (enemyShoot rand s).started = s.started := by
  unfold enemyShoot; dsimp only; split <;> rfl

@[simp] theorem enemyShoot_paused (rand : Nat) (s : GameState) :
    (enemyShoot rand s).paused = s.paused := by
  unfold enemyShoot; dsimp only; split <;> rfl

@[simp] theorem enemyShoot_gameOver (rand : Nat) (s : GameState) :
    (enemyShoot rand s).gameOver = s.gameOver := by
  unfold enemyShoot; dsimp only; split <;> rfl

@[simp] theorem enemyShoot_lives (rand : Nat) (s : GameState) :
    (enemyShoot rand s).lives = s.lives := by
  unfold enemyShoot; dsimp only; split <;> rfl

@[simp] theorem enemyShoot_score (rand : Nat) (s : GameState) :
    (enemyShoot rand s).score = s.score := by
  unfold enemyShoot; dsimp only; split <;> rfl

@[simp] theorem enemyShoot_highScore (rand : Nat) (s : GameState) :
    (enemyShoot rand s).highScore = s.highScore := by
  unfold enemyShoot; dsimp only; split <;> rfl

@[simp] theorem enemyShoot_level (rand : Nat) (s : GameState) :
    (enemyShoot rand s).level = s.level := by
  unfold enemyShoot; dsimp only; split <;> rfl

@[simp] theorem enemyShoot_invaders (rand : Nat) (s : GameState) :
    (enemyShoot rand s).invaders = s.invaders := by
  unfold enemyShoot; dsimp only; split <;> rfl

@[simp] theorem checkLevelComplete_player (s : GameState) :
    (checkLevelComplete s).player = s.player := by
  unfold checkLevelComplete; split <;> rfl

@[simp] theorem checkLevelComplete_started (s : GameState) :
    (checkLevelComplete s).started = s.started := by
  unfold checkLevelComplete; split <;> rfl

@[simp] theorem checkLevelComplete_paused (s : GameState) :
    (checkLevelComplete s).paused = s.paused := by
  unfold checkLevelComplete; split <;> rfl

@[simp] theorem checkLevelComplete_gameOver (s : GameState) :
    (checkLevelComplete s).gameOver = s.gameOver := by
  unfold checkLevelComplete; split <;> rfl

@[simp] theorem checkLevelComplete_lives (s : GameState) :
    (checkLevelComplete s).lives = s.lives := by
  unfold checkLevelComplete; split <;> rfl

@[simp] theorem checkLevelComplete_score (s : GameState) :
    (checkLevelComplete s).score = s.score := by
  unfold checkLevelComplete; split <;> rfl

@[simp] theorem checkLevelComplete_highScore (s : GameState) :
    (checkLevelComplete s).highScore = s.highScore := by
  unfold checkLevelComplete; split <;> rfl

@[simp] theorem shootBullet_player (s : GameState) :
    (shootBullet s).player = s.player := by
  unfold shootBullet; split <;> rfl

@[simp] theorem shootBullet_started (s : GameState) :
    (shootBullet s).started = s.started := by
  unfold shootBullet; split <;> rfl

@[simp] theorem shootBullet_paused (s : GameState) :
    (shootBullet s).paused = s.paused := by
  unfold shootBullet; split <;> rfl

@[simp] theorem shootBullet_gameOver (s : GameState) :
    (shootBullet s).gameOver = s.gameOver := by
  unfold shootBullet; split <;> rfl

@[simp] theorem shootBullet_lives (s : GameState) :
    (shootBullet s).lives = s.lives := by
  unfold shootBullet; split <;> rfl

@[simp] theorem shootBullet_score (s : GameState) :
    (shootBullet s).score = s.score := by
  unfold shootBullet; split <;> rfl

@[simp] theorem shootBullet_highScore (s : GameState) :
    (shootBullet s).highScore = s.highScore := by
  unfold shootBullet; split <;> rfl

@[simp] theorem startGame_player (s : GameState) :
    (startGame s).player = s.player := by
  unfold startGame; split <;> rfl

@[simp] theorem startGame_paused (s : GameState) :
    (startGame s).paused = s.paused := by
  unfold startGame; split <;> rfl

@[simp] theorem startGame_gameOver (s : GameState) :
    (startGame s).gameOver = s.gameOver := by
  unfold startGame; split <;> rfl

@[simp] theorem startGame_lives (s : GameState) :
    (startGame s).lives = s.lives := by
  unfold startGame; split <;> rfl

@[simp] theorem startGame_score (s : GameState) :
    (startGame s).score = s.score := by
  unfold startGame; split <;> rfl

@[simp] theorem startGame_highScore (s : GameState) :
    (startGame s).highScore = s.highScore := by
  unfold startGame; split <;> rfl

@[simp] theorem togglePause_player (s : GameState) :
    (togglePause s).player = s.player := by
  unfold togglePause; split <;> rfl

@[simp] theorem togglePause_started (s : GameState) :
    (togglePause s).started = s.started := by
  unfold togglePause; split <;> rfl

@[simp] theorem togglePause_gameOver (s : GameState) :
    (togglePause s).gameOver = s.gameOver := by
  unfold togglePause; split <;> rfl

@[simp] theorem togglePause_lives (s : GameState) :
    (togglePause s).lives = s.lives := by
  unfold togglePause; split <;> rfl

@[simp] theorem togglePause_score (s : GameState) :
    (togglePause s).score = s.score := by
  unfold togglePause; split <;> rfl

@[simp] theorem togglePause_highScore (s : GameState) :
    (togglePause s).highScore = s.highScore := by
  unfold togglePause; split <;> rfl

@[simp] theorem initGame_flags (s : GameState) :
    (initGame s).paused = false ∧ (initGame s).started = false ∧
    (initGame s).gameOver = false ∧ (initGame s).lives = 3 ∧
    (initGame s).score = 0 ∧ (initGame s).player = { x := 30, y := 37 } := by
  refine ⟨rfl, rfl, rfl, rfl, rfl, ?_⟩
  rfl

@[simp] theorem initGame_highScore (s : GameState) :
    (initGame s).highScore = s.highScore := rfl

@[simp] theorem cooldownStep_player (dt : Int) (s : GameState) :
    (cooldownStep dt s).player = s.player := by
  unfold cooldownStep; split <;> rfl

@[simp] theorem cooldownStep_paused (dt : Int) (s : GameState) :
    (cooldownStep dt s).paused = s.paused := by
  unfold cooldownStep; split <;> rfl

@[simp] theorem cooldownStep_started (dt : Int) (s : GameState) :
    (cooldownStep dt s).started = s.started := by
  unfold cooldownStep; split <;> rfl

@[simp] theorem cooldownStep_gameOver (dt : Int) (s : GameState) :
    (cooldownStep dt s).gameOver = s.gameOver := by
  unfold cooldownStep; split <;> rfl

@[simp] theorem cooldownStep_lives (dt : Int) (s : GameState) :
    (cooldownStep dt s).lives = s.lives := by
  unfold cooldownStep; split <;> rfl

@[simp] theorem cooldownStep_score (dt : Int) (s : GameState) :
    (cooldownStep dt s).score = s.score := by
  unfold cooldownStep; split <;> rfl

@[simp] theorem cooldownStep_highScore (dt : Int) (s : GameState) :
    (cooldownStep dt s).highScore = s.highScore := by
  unfold cooldownStep; split <;> rfl

@[simp] theorem enemyShootStep_player (dt : Int) (rand : Nat) (s : GameState) :
    (enemyShootStep dt rand s).player = s.player := by
  unfold enemyShootStep; split <;> simp

@[simp] theorem enemyShootStep_paused (dt : Int) (rand : Nat) (s : GameState) :
    (enemyShootStep dt rand s).paused = s.paused := by
  unfold enemyShootStep; split <;> simp

@[simp] theorem enemyShootStep_started (dt : Int) (rand : Nat) (s : GameState) :
    (enemyShootStep dt rand s).started = s.started := by
  unfold enemyShootStep; split <;> simp

@[simp] theorem enemyShootStep_gameOver (dt : Int) (rand : Nat) (s : GameState) :
    (enemyShootStep dt rand s).gameOver = s.gameOver := by
  unfold enemyShootStep; split <;> simp

@[simp] theorem enemyShootStep_lives (dt : Int) (rand : Nat) (s : GameState) :
    (enemyShootStep dt rand s).lives = s.lives := by
  unfold enemyShootStep; split <;> simp

@[simp] theorem enemyShootStep_score (dt : Int) (rand : Nat) (s : GameState) :
    (enemyShootStep dt rand s).score = s.score := by
  unfold enemyShootStep; split <;> simp

@[simp] theorem enemyShootStep_highScore (dt : Int) (rand : Nat) (s : GameState) :
    (enemyShootStep dt rand s).highScore = s.highScore := by
  unfold enemyShootStep; split <;> simp

@[simp] theorem highScoreStep_player (s : GameState) :
    (highScoreStep s).player = s.player := by
  unfold highScoreStep; split <;> rfl

@[simp] theorem highScoreStep_paused (s : GameState) :
    (highScoreStep s).paused = s.paused := by
  unfold highScoreStep; split <;> rfl

@[simp] theorem highScoreStep_started (s : GameState) :
    (highScoreStep s).started = s.started := by
  unfold highScoreStep; split <;> rfl

@[simp] theorem highScoreStep_gameOver (s : GameState) :
    (highScoreStep s).gameOver = s.gameOver := by
  unfold highScoreStep; split <;> rfl

@[simp] theorem highScoreStep_lives (s : GameState) :
    (highScoreStep s).lives = s.lives := by
  unfold highScoreStep; split <;> rfl

@[simp] theorem highScoreStep_score (s : GameState) :
    (highScoreStep s).score = s.score := by
  unfold highScoreStep; split <;> rfl

theorem highScoreStep_highScore (s : GameState) :
    (highScoreStep s).highScore = max s.highScore s.score := by
  unfold highScoreStep; split
  · rename_i hgt
    show s.score = max s.highScore s.score
    omega
  · rename_i hgt
    show s.highScore = max s.highScore s.score
    omega

/-! ### The bullet passes consume at most what they are given -/

theorem playerPass_lives_le (p : Point) (bs : List Bullet) (lv : Int)
    (go : Bool) : (playerPass p bs lv go).2.1 ≤ lv := by
  induction bs with
  | nil => exact le_refl lv
  | cons b rest ih =>
    unfold playerPass; dsimp only
    split
    · show (playerPass p rest lv go).2.1 - 1 ≤ lv
      omega
    · exact ih

theorem updateBullets_lives_le (s : GameState) :
    (updateBullets s).lives ≤ s.lives :=
  playerPass_lives_le _ _ _ _

theorem invaderPass_score_le (bs : List Bullet) (invs : List Invader)
    (sc : Nat) : sc ≤ (invaderPass bs invs sc).2.2 := by
  induction bs with
  | nil => exact le_refl sc
  | cons b rest ih =>
    unfold invaderPass; dsimp only
    split
    · split
      · rename_i invs' pts heq
        show sc ≤ (invaderPass rest invs sc).2.2 + pts
        omega
      · exact ih
    · exact ih

theorem updateBullets_score_le (s : GameState) :
    s.score ≤ (updateBullets s).score :=
  invaderPass_score_le _ _ _

/-! ### Preservation of the master state invariant -/

theorem stateInv_initGame (s : GameState) : StateInv (initGame s) := by
  refine ⟨?_, ?_, ?_, ?_, ?_, Or.inl rfl⟩
  · show (0 : Int) ≤ GRID_WIDTH / 2
    decide
  · show GRID_WIDTH / 2 ≤ (58 : Int)
    decide
  · show (GRID_WIDTH / 2) % 2 = (0 : Int)
    decide
  · show (3 : Int) ≤ 3
    decide
  · intro h
    exact Bool.noConfusion h

theorem stateInv_startGame {s : GameState} (h : StateInv s) :
    StateInv (startGame s) := by
  obtain ⟨h1, h2, h3, h4, h5, h6⟩ := h
  unfold startGame; split
  · exact ⟨h1, h2, h3, h4, fun _ => rfl, h6⟩
  · exact ⟨h1, h2, h3, h4, h5, h6⟩

theorem stateInv_kbStart {s : GameState} (h : StateInv s) :
    StateInv (kbStart s) := by
  obtain ⟨h1, h2, h3, h4, h5, h6⟩ := h
  unfold kbStart; split
  · exact ⟨h1, h2, h3, h4, fun _ => rfl, h6⟩
  · exact ⟨h1, h2, h3, h4, h5, h6⟩

theorem stateInv_togglePause {s : GameState} (h : StateInv s) :
    StateInv (togglePause s) := by
  obtain ⟨h1, h2, h3, h4, h5, h6⟩ := h
  unfold togglePause; split
  · rename_i hg
    simp only [Bool.and_eq_true, Bool.not_eq_true'] at hg
    exact ⟨h1, h2, h3, h4, fun _ => hg.1, Or.inr hg.2⟩
  · exact ⟨h1, h2, h3, h4, h5, h6⟩

theorem stateInv_shootBullet {s : GameState} (h : StateInv s) :
    StateInv (shootBullet s) := by
  obtain ⟨h1, h2, h3, h4, h5, h6⟩ := h
  unfold shootBullet; split
  · exact ⟨h1, h2, h3, h4, h5, h6⟩
  · exact ⟨h1, h2, h3, h4, h5, h6⟩

theorem stateInv_kbLeft (dir : Int) {s : GameState} (h : StateInv s) :
    StateInv (kbLeft dir s) := by
  obtain ⟨h1, h2, h3, h4, h5, h6⟩ := h
  unfold kbLeft; split
  · rename_i hg
    refine ⟨?_, ?_, ?_, h4, h5, h6⟩
    · show (0 : Int) ≤ s.player.x - 2
      omega
    · show s.player.x - 2 ≤ 58
      omega
    · show (s.player.x - 2) % 2 = 0
      omega
  · exact ⟨h1, h2, h3, h4, h5, h6⟩

theorem stateInv_kbRight (dir : Int) {s : GameState} (h : StateInv s) :
    StateInv (kbRight dir s) := by
  obtain ⟨h1, h2, h3, h4, h5, h6⟩ := h
  unfold kbRight; split
  · rename_i hg
    have hx : s.player.x < 58 := by
      have := hg.2
      unfold GRID_WIDTH at this
      omega
    refine ⟨?_, ?_, ?_, h4, h5, h6⟩
    · show (0 : Int) ≤ s.player.x + 2
      omega
    · show s.player.x + 2 ≤ 58
      omega
    · show (s.player.x + 2) % 2 = 0
      omega
  · exact ⟨h1, h2, h3, h4, h5, h6⟩

theorem stateInv_kbMove (dir : Int) {s : GameState} (h : StateInv s) :
    StateInv (kbMove dir s) := by
  unfold kbMove; split
  · exact stateInv_kbRight dir (stateInv_kbLeft dir (stateInv_kbStart h))
  · exact h

theorem stateInv_gpMove (inp : Input) {s : GameState} (h : StateInv s) :
    StateInv (gpMove inp s) := by
  obtain ⟨h1, h2, h3, h4, h5, h6⟩ := h
  unfold gpMove; split
  · apply stateInv_startGame
    split
    · rename_i hg
      refine ⟨?_, ?_, ?_, h4, h5, h6⟩
      · show (0 : Int) ≤ s.player.x - 2
        omega
      · show s.player.x - 2 ≤ 58
        omega
      · show (s.player.x - 2) % 2 = 0
        omega
    · exact ⟨h1, h2, h3, h4, h5, h6⟩
  · split
    · apply stateInv_startGame
      split
      · rename_i hg
        have hx : s.player.x < 58 := by
          unfold GRID_WIDTH at hg
          omega
        refine ⟨?_, ?_, ?_, h4, h5, h6⟩
        · show (0 : Int) ≤ s.player.x + 2
          omega
        · show s.player.x + 2 ≤ 58
          omega
        · show (s.player.x + 2) % 2 = 0
          omega
      · exact ⟨h1, h2, h3, h4, h5, h6⟩
    · exact ⟨h1, h2, h3, h4, h5, h6⟩

theorem stateInv_gpShootStep (inp : Input) {s : GameState} (h : StateInv s) :
    StateInv (gpShootStep inp s) := by
  unfold gpShootStep; split
  · apply stateInv_startGame
    split
    · exact stateInv_shootBullet h
    · exact h
  · exact h

theorem stateInv_gpPauseStep (inp : Input) {s : GameState} (h : StateInv s) :
    StateInv (gpPauseStep inp s) := by
  unfold gpPauseStep; split
  · exact stateInv_togglePause h
  · exact h

theorem stateInv_gpRestartStep (inp : Input) {s : GameState} (h : StateInv s) :
    StateInv (gpRestartStep inp s) := by
  unfold gpRestartStep; split
  · split
    · exact stateInv_initGame _
    · exact h
  · exact h

theorem stateInv_handleGamepadInput (inp : Input) {s : GameState}
    (h : StateInv s) : StateInv (handleGamepadInput inp s) := by
  unfold handleGamepadInput; split
  · exact h
  · exact stateInv_gpRestartStep inp (stateInv_gpPauseStep inp
      (stateInv_gpShootStep inp (stateInv_gpMove inp h)))

theorem stateInv_frameInput (inp : Input) {s : GameState} (h : StateInv s) :
    StateInv (frameInput inp s) :=
  stateInv_kbMove inp.kbDir (stateInv_handleGamepadInput inp h)

theorem simulate_player (dt : Int) (rand : Nat) (s : GameState) :
    (simulate dt rand s).player = s.player := by
  simp [simulate]

theorem simulate_paused (dt : Int) (rand : Nat) (s : GameState) :
    (simulate dt rand s).paused = s.paused := by
  simp [simulate]

theorem simulate_started (dt : Int) (rand : Nat) (s : GameState) :
    (simulate dt rand s).started = s.started := by
  simp [simulate]

theorem simulate_lives_le (dt : Int) (rand : Nat) (s : GameState) :
    (simulate dt rand s).lives ≤ s.lives ∨ (simulate dt rand s).lives ≤ 0 := by
  have hmv := moveInvaders_lives dt (cooldownStep dt s)
  have hub := updateBullets_lives_le
      (enemyShootStep dt rand (moveInvaders dt (cooldownStep dt s)))
  have hsim : (simulate dt rand s).lives =
      (updateBullets (enemyShootStep dt rand
        (moveInvaders dt (cooldownStep dt s)))).lives := by
    simp [simulate]
  rw [hsim]
  rw [enemyShootStep_lives] at hub
  rcases hmv with hmv | hmv
  · right
    omega
  · left
    rw [hmv, cooldownStep_lives] at hub
    exact hub

theorem stateInv_simulate (dt : Int) (rand : Nat) {s : GameState}
    (h : StateInv s) (hp : s.paused = false) :
    StateInv (simulate dt rand s) := by
  obtain ⟨h1, h2, h3, h4, h5, h6⟩ := h
  refine ⟨?_, ?_, ?_, ?_, ?_, ?_⟩
  · rw [simulate_player]; exact h1
  · rw [simulate_player]; exact h2
  · rw [simulate_player]; exact h3
  · rcases simulate_lives_le dt rand s with hl | hl
    · exact le_trans hl h4
    · exact le_trans hl (by decide)
  · rw [simulate_paused, hp]
    intro hc
    exact absurd hc (by decide)
  · left
    rw [simulate_paused]
    exact hp

theorem stateInv_update (dt : Int) (inp : Input) {s : GameState}
    (h : StateInv s) : StateInv (update dt inp s) := by
  unfold update; dsimp only
  split
  · exact stateInv_frameInput inp h
  · rename_i hc
    have hp : (frameInput inp s).paused = false := by
      by_contra hp
      rw [Bool.not_eq_false] at hp
      exact hc (by simp [hp])
    exact stateInv_simulate dt inp.rand (stateInv_frameInput inp h) hp

theorem stateInv_step (e : Event) {s : GameState} (h : StateInv s) :
    StateInv (step s e) := by
  cases e with
  | frame dt inp => exact stateInv_update dt inp h
  | keyShoot =>
    apply stateInv_startGame
    dsimp only [step]
    split
    · exact stateInv_shootBullet h
    · exact h
  | keyPauseToggle => exact stateInv_togglePause h
  | keyRestart =>
    dsimp only [step]
    split
    · exact stateInv_initGame _
    · exact h

theorem stateInv_runEvents (es : List Event) {s : GameState}
    (h : StateInv s) : StateInv (runEvents s es) := by
  induction es generalizing s with
  | nil => exact h
  | cons e es ih => exact ih (stateInv_step e h)

theorem stateInv_mkInitial : StateInv mkInitial := by
  refine ⟨by decide, by decide, by decide, by decide, ?_, Or.inl rfl⟩
  intro h
  exact Bool.noConfusion h

theorem stateInv_reachable (es : List Event) :
    StateInv (runEvents mkInitial es) :=
  stateInv_runEvents es stateInv_mkInitial

/-! ### Claim C1 -/

set_option maxRecDepth 100000 in
/-- C1 (counterexample): the claimed lower bound 1 on the player's x fails.
Holding keyboard-left for 15 frames from a fresh game walks the player from
column 30 to column 0: the guard `player.x > 1` still allows the move from
x = 2, which lands at x = 0 < 1. -/
theorem c1_player_x_reaches_zero :
    (runEvents mkInitial c1Events).player.x = 0 ∧
    ¬(1 ≤ (runEvents mkInitial c1Events).player.x) := by
  have h : (runEvents mkInitial c1Events).player.x = 0 := by decide
  refine ⟨h, ?_⟩
  rw [h]
  decide

/-- C1 (amended): for every sequence of frames and inputs, the player's x
stays within [0, W-2] = [0, 58]; the actual reachable range is two cells
wider on the left than the claimed [1, 58]. -/
theorem c1_player_x_bounds (es : List Event) :
    0 ≤ (runEvents mkInitial es).player.x ∧
    (runEvents mkInitial es).player.x ≤ GRID_WIDTH - 2 := by
  have h := stateInv_reachable es
  refine ⟨h.1, ?_⟩
  have h2 := h.2.1
  unfold GRID_WIDTH
  omega

/-! ### Claim C4 -/

set_option maxRecDepth 1000000 in
set_option maxHeartbeats 2000000 in
/-- C4 (counterexample): lives goes negative.  After two single enemy hits
bring lives to 1, the schedule `c4Events` lands two enemy bullets on the
player in the same frame; the hit loop decrements lives once per bullet
with no floor, ending at lives = −1. -/
theorem c4_lives_negative :
    (runEvents mkInitial c4Events).lives = -1 ∧
    (runEvents mkInitial c4Events).lives < 0 := by
  have h : (runEvents mkInitial c4Events).lives = -1 := by decide
  refine ⟨h, ?_⟩
  rw [h]
  decide

/-- C4 (amended): in every reachable state lives is at most 3; the claimed
lower bound 0 does not hold, because each of several enemy bullets hitting
the player in the same frame decrements lives by one even past zero. -/
theorem c4_lives_at_most_three (es : List Event) :
    (runEvents mkInitial es).lives ≤ 3 :=
  (stateInv_reachable es).2.2.2.1

/-! ### Pause freezing (claim C2) -/

theorem startGame_of_started {s : GameState} (hs : s.started = true) :
    startGame s = s := by
  have hc : ¬((!s.started && !s.gameOver) = true) := by simp [hs]
  unfold startGame
  rw [if_neg hc]

theorem togglePause_togglePause (s : GameState) :
    togglePause (togglePause s) = s := by
  by_cases hc : (s.started && !s.gameOver) = true
  · have h1 : togglePause s = { s with paused := !s.paused } := by
      unfold togglePause
      rw [if_pos hc]
    rw [h1]
    unfold togglePause
    rw [if_pos hc]
    show { s with paused := !!s.paused } = s
    rw [Bool.not_not]
  · have h1 : togglePause s = s := by
      unfold togglePause
      rw [if_neg hc]
    rw [h1, h1]

theorem gpMove_only_player (inp : Input) {s : GameState}
    (hs : s.started = true) : ∃ p, gpMove inp s = { s with player := p } := by
  unfold gpMove
  split
  · split
    · exact ⟨{ s.player with x := s.player.x - 2 }, startGame_of_started hs⟩
    · exact ⟨s.player, startGame_of_started hs⟩
  · split
    · split
      · exact ⟨{ s.player with x := s.player.x + 2 }, startGame_of_started hs⟩
      · exact ⟨s.player, startGame_of_started hs⟩
    · exact ⟨s.player, rfl⟩

theorem gpShootStep_paused (inp : Input) {s : GameState}
    (hs : s.started = true) (hp : s.paused = true) :
    gpShootStep inp s = s := by
  unfold gpShootStep
  split
  · have hc : ¬((s.started && !s.gameOver && !s.paused) = true) := by
      simp [hp]
    rw [if_neg hc]
    exact startGame_of_started hs
  · rfl

theorem gpPauseStep_of_not_pressed (inp : Input) (s : GameState)
    (hq : inp.gpPause = false) : gpPauseStep inp s = s := by
  unfold gpPauseStep
  rw [hq]
  rfl

theorem gpRestartStep_of_not_over (inp : Input) {s : GameState}
    (hg : s.gameOver = false) : gpRestartStep inp s = s := by
  unfold gpRestartStep
  rw [hg]
  split <;> rfl

theorem handleGamepadInput_only_player (inp : Input) {s : GameState}
    (hs : s.started = true) (hp : s.paused = true) (hg : s.gameOver = false)
    (hq : inp.gpPause = false) :
    ∃ p, handleGamepadInput inp s = { s with player := p } := by
  unfold handleGamepadInput
  split
  · exact ⟨s.player, rfl⟩
  · obtain ⟨p, hmv⟩ := gpMove_only_player inp hs
    rw [hmv, gpShootStep_paused (s := { s with player := p }) inp hs hp,
        gpPauseStep_of_not_pressed inp _ hq,
        gpRestartStep_of_not_over (s := { s with player := p }) inp hg]
    exact ⟨p, rfl⟩

theorem kbStart_of_started {s : GameState} (hs : s.started = true) :
    kbStart s = s := by
  have hc : ¬((!s.started && !s.gameOver) = true) := by simp [hs]
  unfold kbStart
  rw [if_neg hc]

theorem kbLeft_only_player (dir : Int) (s : GameState) :
    ∃ p, kbLeft dir s = { s with player := p } := by
  unfold kbLeft
  split
  · exact ⟨{ s.player with x := s.player.x - 2 }, rfl⟩
  · exact ⟨s.player, rfl⟩

theorem kbRight_only_player (dir : Int) (s : GameState) :
    ∃ p, kbRight dir s = { s with player := p } := by
  unfold kbRight
  split
  · exact ⟨{ s.player with x := s.player.x + 2 }, rfl⟩
  · exact ⟨s.player, rfl⟩

theorem kbMove_only_player (dir : Int) {s : GameState}
    (hs : s.started = true) :
    ∃ p, kbMove dir s = { s with player := p } := by
  unfold kbMove
  split
  · rw [kbStart_of_started hs]
    obtain ⟨p1, h1⟩ := kbLeft_only_player dir s
    rw [h1]
    obtain ⟨p2, h2⟩ := kbRight_only_player dir { s with player := p1 }
    rw [h2]
    exact ⟨p2, rfl⟩
  · exact ⟨s.player, rfl⟩

theorem frameInput_only_player (inp : Input) {s : GameState}
    (hs : s.started = true) (hp : s.paused = true) (hg : s.gameOver = false)
    (hq : inp.gpPause = false) :
    ∃ p, frameInput inp s = { s with player := p } := by
  unfold frameInput
  obtain ⟨p1, h1⟩ := handleGamepadInput_only_player inp hs hp hg hq
  rw [h1]
  obtain ⟨p2, h2⟩ := kbMove_only_player inp.kbDir
      (s := { s with player := p1 }) hs
  rw [h2]
  exact ⟨p2, rfl⟩

/-- C2 (counterexample): a paused `update` is not a full no-op.  From a
fresh game started by Space and paused by P, one frame with keyboard-left
held leaves the game paused but moves the player from column 30 to 28,
so the entity list in the claim ("no entity (player, ...) changes") is
wrong about the player. -/
theorem c2_paused_update_changes_player :
    pausedDemo.paused = true ∧
    (update 100 leftInput pausedDemo).paused = true ∧
    (update 100 leftInput pausedDemo).player.x ≠ pausedDemo.player.x := by
  refine ⟨by decide, by decide, by decide⟩

/-- C2 (amended): while Paused (with the pause button not pressed again
this frame), `update(deltaTime)` changes at most the player's position —
every timer (shoot cooldown, enemy-shoot timer, formation clock), every
other entity (invaders, bullets, barriers), score, lives, level, high
score and all phase flags are exactly preserved — and toggling pause twice
in immediate succession always returns the original state. -/
theorem c2_paused_frame_frozen :
    (∀ (s : GameState) (dt : Int) (inp : Input),
        s.paused = true → s.started = true → s.gameOver = false →
        inp.gpPause = false →
        ∃ p, update dt inp s = { s with player := p }) ∧
    (∀ s : GameState, togglePause (togglePause s) = s) := by
  constructor
  · intro s dt inp hp hs hg hq
    obtain ⟨p, hfi⟩ := frameInput_only_player inp hs hp hg hq
    refine ⟨p, ?_⟩
    unfold update
    dsimp only
    rw [hfi]
    have hcond : (!({ s with player := p } : GameState).started ||
        ({ s with player := p } : GameState).gameOver ||
        ({ s with player := p } : GameState).paused) = true := by
      simp [hp]
    rw [if_pos hcond]
  · exact togglePause_togglePause

/-- C2 witness: the amended theorem applied at the concrete paused state
`pausedDemo` with a movement-carrying frame. -/
theorem c2_paused_frame_frozen_witness :
    (∃ p, update 100 leftInput pausedDemo = { pausedDemo with player := p }) ∧
    togglePause (togglePause pausedDemo) = pausedDemo :=
  ⟨c2_paused_frame_frozen.1 pausedDemo 100 leftInput (by decide) (by decide)
      (by decide) (by decide),
   c2_paused_frame_frozen.2 pausedDemo⟩

/-! ### Claim C3 -/

/-- C3: a triggered formation step is atomic over the alive set.  When the
formation clock expires, either some alive invader sits at the edge for the
current direction and then every alive invader drops by exactly 2 with x
unchanged while the direction flips, or no alive invader does and then
every alive invader slides by exactly the current direction with y
unchanged and the direction kept — and dead invaders never move. -/
theorem c3_formation_step_atomic (s : GameState) (dt : Int)
    (htrig : s.invaderMoveTimer + dt ≥ s.invaderMoveInterval) :
    (moveInvaders dt s).invaders.length = s.invaders.length ∧
    (edgeTriggered s = true →
      (moveInvaders dt s).invaderDirection = -s.invaderDirection ∧
      ∀ i (hi : i < s.invaders.length)
        (hi2 : i < (moveInvaders dt s).invaders.length),
        ((s.invaders[i].alive = true →
            (moveInvaders dt s).invaders[i].y = s.invaders[i].y + 2 ∧
            (moveInvaders dt s).invaders[i].x = s.invaders[i].x) ∧
         (s.invaders[i].alive = false →
            (moveInvaders dt s).invaders[i] = s.invaders[i]))) ∧
    (edgeTriggered s = false →
      (moveInvaders dt s).invaderDirection = s.invaderDirection ∧
      ∀ i (hi : i < s.invaders.length)
        (hi2 : i < (moveInvaders dt s).invaders.length),
        ((s.invaders[i].alive = true →
            (moveInvaders dt s).invaders[i].x =
              s.invaders[i].x + s.invaderDirection ∧
            (moveInvaders dt s).invaders[i].y = s.invaders[i].y) ∧
         (s.invaders[i].alive = false →
            (moveInvaders dt s).invaders[i] = s.invaders[i]))) := by
  unfold moveInvaders
  rw [if_pos htrig]
  dsimp only
  refine ⟨?_, ?_, ?_⟩
  · split <;> simp
  · intro hedge
    rw [if_pos hedge, if_pos hedge]
    refine ⟨rfl, ?_⟩
    intro i hi hi2
    constructor
    · intro ha
      refine ⟨?_, ?_⟩ <;> simp [ha]
    · intro ha
      simp [ha]
  · intro hedge
    rw [if_neg (by rw [hedge]; exact Bool.noConfusion),
        if_neg (by rw [hedge]; exact Bool.noConfusion)]
    refine ⟨rfl, ?_⟩
    intro i hi hi2
    constructor
    · intro ha
      refine ⟨?_, ?_⟩ <;> simp [ha]
    · intro ha
      simp [ha]

/-- C3 witness: the theorem applied to a concrete right-moving formation
with one alive invader on the edge column 57 and an expired clock. -/
theorem c3_formation_step_atomic_witness :
    (moveInvaders 800 demoEdgeState).invaders.length =
      demoEdgeState.invaders.length ∧
    (moveInvaders 800 demoEdgeState).invaderDirection =
      -demoEdgeState.invaderDirection :=
  ⟨(c3_formation_step_atomic demoEdgeState 800 (by decide)).1,
   ((c3_formation_step_atomic demoEdgeState 800 (by decide)).2.1
      (by decide)).1⟩

/-! ### Collision conservation (claim C5) -/

theorem healthSum_cons (bar : Barrier) (rest : List Barrier) :
    healthSum (bar :: rest) = bar.health + healthSum rest := by
  simp [healthSum]

theorem killFirstHit_aliveCount (b : Bullet) :
    ∀ (invs invs' : List Invader) (pts : Nat),
      killFirstHit b invs = some (invs', pts) →
      aliveCount invs' + 1 = aliveCount invs := by
  intro invs
  induction invs with
  | nil =>
    intro invs' pts h
    exact absurd h (by simp [killFirstHit])
  | cons inv rest ih =>
    intro invs' pts h
    unfold killFirstHit at h
    split at h
    · rename_i hhit
      have halive : inv.alive = true := by
        unfold bulletHitsInvader at hhit
        simp only [Bool.and_eq_true] at hhit
        exact hhit.1.1
      cases h
      simp [aliveCount, List.filter_cons, halive]
    · cases hrec : killFirstHit b rest with
      | none =>
        rw [hrec] at h
        exact absurd h (by simp)
      | some pr =>
        obtain ⟨rest', pts'⟩ := pr
        rw [hrec] at h
        dsimp only at h
        cases h
        have hr := ih _ _ hrec
        unfold aliveCount at hr ⊢
        cases ha : inv.alive <;> simp [List.filter_cons, ha] <;> omega

theorem invaderPass_conservation (bs : List Bullet) (invs : List Invader)
    (sc : Nat) :
    (invaderPass bs invs sc).1.Sublist bs ∧
    (invaderPass bs invs sc).1.length + aliveCount invs =
      bs.length + aliveCount (invaderPass bs invs sc).2.1 := by
  induction bs with
  | nil => exact ⟨List.Sublist.refl _, rfl⟩
  | cons b rest ih =>
    unfold invaderPass
    dsimp only
    split
    · split
      · rename_i invs'' pts heq
        have hk := killFirstHit_aliveCount b _ invs'' pts heq
        refine ⟨List.Sublist.cons b ih.1, ?_⟩
        have h2 := ih.2
        simp only [List.length_cons]
        omega
      · refine ⟨List.Sublist.cons₂ b ih.1, ?_⟩
        have h2 := ih.2
        simp only [List.length_cons]
        omega
    · refine ⟨List.Sublist.cons₂ b ih.1, ?_⟩
      have h2 := ih.2
      simp only [List.length_cons]
      omega

theorem damageLastHit_healthSum (b : Bullet) :
    ∀ (bars bars' : List Barrier),
      damageLastHit b bars = some bars' →
      (∀ bar ∈ bars, 1 ≤ bar.health) →
      healthSum bars' + 1 = healthSum bars ∧
        (∀ bar ∈ bars', 1 ≤ bar.health) := by
  intro bars
  induction bars with
  | nil =>
    intro bars' h
    exact absurd h (by simp [damageLastHit])
  | cons bar rest ih =>
    intro bars' h hbar
    unfold damageLastHit at h
    split at h
    · rename_i rest' hrec
      cases h
      have hr := ih rest' hrec (fun x hx => hbar x (List.mem_cons_of_mem bar hx))
      constructor
      · rw [healthSum_cons, healthSum_cons]
        have := hr.1
        omega
      · intro x hx
        rcases List.mem_cons.mp hx with hx | hx
        · rw [hx]
          exact hbar bar (List.mem_cons_self bar rest)
        · exact hr.2 x hx
    · split at h
      · rename_i hxy
        have hhead : 1 ≤ bar.health := hbar bar (List.mem_cons_self bar rest)
        have htail : ∀ x ∈ rest, 1 ≤ x.health :=
          fun x hx => hbar x (List.mem_cons_of_mem bar hx)
        cases h
        split
        · rename_i hdead
          constructor
          · rw [healthSum_cons]
            omega
          · exact htail
        · rename_i hlive
          constructor
          · rw [healthSum_cons, healthSum_cons]
            dsimp only
            omega
          · intro x hx
            rcases List.mem_cons.mp hx with hx | hx
            · rw [hx]
              show 1 ≤ bar.health - 1
              omega
            · exact htail x hx
      · exact absurd h (by simp)

theorem barrierPass_conservation (bs : List Bullet) (bars : List Barrier)
    (hbar : ∀ bar ∈ bars, 1 ≤ bar.health) :
    (barrierPass bs bars).1.Sublist bs ∧
    ((barrierPass bs bars).1.length : Int) + healthSum bars =
      (bs.length : Int) + healthSum (barrierPass bs bars).2 ∧
    (∀ bar ∈ (barrierPass bs bars).2, 1 ≤ bar.health) := by
  induction bs with
  | nil => exact ⟨List.Sublist.refl _, rfl, hbar⟩
  | cons b rest ih =>
    unfold barrierPass
    dsimp only
    split
    · rename_i bars'' heq
      have hd := damageLastHit_healthSum b _ bars'' heq ih.2.2
      refine ⟨List.Sublist.cons b ih.1, ?_, hd.2⟩
      have h2 := ih.2.1
      have h1 := hd.1
      simp only [List.length_cons]
      push_cast
      omega
    · refine ⟨List.Sublist.cons₂ b ih.1, ?_, ih.2.2⟩
      have h2 := ih.2.1
      simp only [List.length_cons]
      push_cast
      omega

theorem playerPass_conservation (p : Point) (bs : List Bullet) (lv : Int)
    (go : Bool) :
    (playerPass p bs lv go).1.Sublist bs ∧
    ((playerPass p bs lv go).1.length : Int) + lv =
      (bs.length : Int) + (playerPass p bs lv go).2.1 := by
  induction bs with
  | nil => exact ⟨List.Sublist.refl _, rfl⟩
  | cons b rest ih =>
    unfold playerPass
    dsimp only
    split
    · refine ⟨List.Sublist.cons b ih.1, ?_⟩
      have h2 := ih.2
      show ((playerPass p rest lv go).1.length : Int) + lv =
        ((b :: rest).length : Int) + ((playerPass p rest lv go).2.1 - 1)
      simp only [List.length_cons]
      push_cast
      omega
    · refine ⟨List.Sublist.cons₂ b ih.1, ?_⟩
      have h2 := ih.2
      simp only [List.length_cons]
      push_cast
      omega

/-- C5: the collision resolver consumes a bullet on its first successful
hit and a consumed bullet cannot match any later rule or a second victim.
Through `updateBullets`' three phases in source order the surviving bullet
lists shrink (each pass output is a sublist of its input, so a bullet
consumed by the invader phase never reaches the barrier or player phase),
and each pass balances exactly one destroyed/damaged victim per consumed
bullet: invader kills, barrier health points lost, and player lives lost
each equal the number of bullets consumed by their phase. -/
theorem c5_one_hit_per_bullet (bullets : List Bullet) (invs : List Invader)
    (bars : List Barrier) (p : Point) (sc : Nat) (lv : Int) (go : Bool)
    (hbar : ∀ bar ∈ bars, 1 ≤ bar.health) :
    (invaderPass bullets invs sc).1.Sublist bullets ∧
    (barrierPass (invaderPass bullets invs sc).1 bars).1.Sublist
      (invaderPass bullets invs sc).1 ∧
    (playerPass p (barrierPass (invaderPass bullets invs sc).1 bars).1
        lv go).1.Sublist
      (barrierPass (invaderPass bullets invs sc).1 bars).1 ∧
    (invaderPass bullets invs sc).1.length + aliveCount invs =
      bullets.length + aliveCount (invaderPass bullets invs sc).2.1 ∧
    ((barrierPass (invaderPass bullets invs sc).1 bars).1.length : Int) +
        healthSum bars =
      ((invaderPass bullets invs sc).1.length : Int) +
        healthSum (barrierPass (invaderPass bullets invs sc).1 bars).2 ∧
    ((playerPass p (barrierPass (invaderPass bullets invs sc).1 bars).1
          lv go).1.length : Int) + lv =
      ((barrierPass (invaderPass bullets invs sc).1 bars).1.length : Int) +
        (playerPass p (barrierPass (invaderPass bullets invs sc).1 bars).1
          lv go).2.1 := by
  have h1 := invaderPass_conservation bullets invs sc
  have h2 := barrierPass_conservation (invaderPass bullets invs sc).1 bars hbar
  have h3 := playerPass_conservation p
      (barrierPass (invaderPass bullets invs sc).1 bars).1 lv go
  exact ⟨h1.1, h2.1, h3.1, h1.2, h2.2.1, h3.2⟩

/-- C5 witness: the conservation applied to two concrete bullets against
the fresh wave and fresh barriers. -/
theorem c5_one_hit_per_bullet_witness :
    (invaderPass demoBullets spawnGrid 0).1.Sublist demoBullets ∧
    (invaderPass demoBullets spawnGrid 0).1.length + aliveCount spawnGrid =
      demoBullets.length +
        aliveCount (invaderPass demoBullets spawnGrid 0).2.1 := by
  have h := c5_one_hit_per_bullet demoBullets spawnGrid barrierGrid
      { x := 30, y := 37 } 0 3 false (by decide)
  exact ⟨h.1, h.2.2.2.1⟩

/-! ### Claim C6 -/

/-- C6: a fire request is a complete no-op while the accumulated cooldown
is positive; with the cooldown elapsed it appends exactly one player-owned
bullet at (player.x, player.y − 1) and resets the cooldown to 300ms,
changing nothing else; and in the concrete two-fires-100ms-apart scenario
(300ms cooldown) exactly one bullet exists afterwards. -/
theorem c6_fire_cooldown_gate :
    (∀ s : GameState, 0 < s.shootCooldown → shootBullet s = s) ∧
    (∀ s : GameState, s.shootCooldown ≤ 0 →
        shootBullet s = { s with
          bullets := s.bullets ++
            [{ x := s.player.x, y := s.player.y - 1, isPlayerBullet := true }],
          shootCooldown := 300 }) ∧
    (runEvents mkInitial c6Events).bullets.length = 1 := by
  refine ⟨?_, ?_, by decide⟩
  · intro s h
    unfold shootBullet
    rw [if_neg (by omega)]
  · intro s h
    unfold shootBullet
    rw [if_pos h]

/-- C6 witness: both gated branches at concrete states — a successful shot
from the fresh state (cooldown 0) and a rejected shot at cooldown 200. -/
theorem c6_fire_cooldown_gate_witness :
    shootBullet mkInitial = { mkInitial with
      bullets := mkInitial.bullets ++
        [{ x := mkInitial.player.x, y := mkInitial.player.y - 1,
           isPlayerBullet := true }],
      shootCooldown := 300 } ∧
    shootBullet { mkInitial with shootCooldown := 200 } =
      { mkInitial with shootCooldown := 200 } :=
  ⟨c6_fire_cooldown_gate.2.1 mkInitial (by decide),
   c6_fire_cooldown_gate.1 { mkInitial with shootCooldown := 200 } (by decide)⟩

/-! ### Claims C8 and C10 -/

/-- C8: when the alive-invader count is 0, the level-complete check bumps
the level by one, spawns the full fresh 5×11 wave (55 invaders, all alive,
at the spawn grid positions with row-determined tiers), resets the 72
barrier segments to full health 3, empties the bullet list, recomputes the
formation interval as max(300, 800 − level·100) for the new level, and
leaves the phase flags untouched. -/
theorem c8_level_complete_spawns_wave (s : GameState)
    (h : aliveCount s.invaders = 0) :
    (checkLevelComplete s).level = s.level + 1 ∧
    (checkLevelComplete s).invaders.length = 55 ∧
    (∀ inv ∈ (checkLevelComplete s).invaders, inv.alive = true) ∧
    (∀ row < 5, ∀ col < 11,
        (checkLevelComplete s).invaders.getD (row * 11 + col) dummyInvader =
          { x := 10 + 4 * (col : Int), y := 5 + 3 * (row : Int),
            type := if row < 1 then 2 else if row < 3 then 1 else 0,
            alive := true }) ∧
    (checkLevelComplete s).barriers.length = 72 ∧
    (∀ bar ∈ (checkLevelComplete s).barriers, bar.health = 3) ∧
    (checkLevelComplete s).bullets = [] ∧
    (checkLevelComplete s).invaderMoveInterval =
      max 300 (800 - ((s.level + 1 : Nat) : Int) * 100) ∧
    (checkLevelComplete s).started = s.started ∧
    (checkLevelComplete s).paused = s.paused ∧
    (checkLevelComplete s).gameOver = s.gameOver := by
  unfold checkLevelComplete
  rw [if_pos h]
  refine ⟨rfl, ?_, ?_, ?_, ?_, ?_, rfl, rfl, rfl, rfl, rfl⟩
  · show spawnGrid.length = 55
    decide
  · show ∀ inv ∈ spawnGrid, inv.alive = true
    decide
  · show ∀ row < 5, ∀ col < 11,
        spawnGrid.getD (row * 11 + col) dummyInvader =
          { x := 10 + 4 * (col : Int), y := 5 + 3 * (row : Int),
            type := if row < 1 then 2 else if row < 3 then 1 else 0,
            alive := true }
    decide
  · show barrierGrid.length = 72
    decide
  · show ∀ bar ∈ barrierGrid, bar.health = 3
    decide

/-- C8 witness: the wave respawn evaluated on a concrete state whose
invaders are all dead. -/
theorem c8_level_complete_spawns_wave_witness :
    (checkLevelComplete clearedWaveState).level =
      clearedWaveState.level + 1 ∧
    (checkLevelComplete clearedWaveState).invaders.length = 55 ∧
    (checkLevelComplete clearedWaveState).bullets = [] := by
  have h := c8_level_complete_spawns_wave clearedWaveState (by decide)
  exact ⟨h.1, h.2.1, h.2.2.2.2.2.2.1⟩

/-- C10: the level-complete transition is frame-exact over everything it
does not list: with the wave cleared, score, lives, high score, the
player's position, the phase flags, and all three timers (shoot cooldown,
enemy-shoot timer, formation clock) are unchanged by `checkLevelComplete`;
only level, invaders, barriers, bullets and the formation
interval/direction are touched. -/
theorem c10_level_complete_preserves_rest (s : GameState)
    (h : aliveCount s.invaders = 0) :
    (checkLevelComplete s).score = s.score ∧
    (checkLevelComplete s).lives = s.lives ∧
    (checkLevelComplete s).highScore = s.highScore ∧
    (checkLevelComplete s).player = s.player ∧
    (checkLevelComplete s).started = s.started ∧
    (checkLevelComplete s).paused = s.paused ∧
    (checkLevelComplete s).gameOver = s.gameOver ∧
    (checkLevelComplete s).shootCooldown = s.shootCooldown ∧
    (checkLevelComplete s).enemyShootTimer = s.enemyShootTimer ∧
    (checkLevelComplete s).invaderMoveTimer = s.invaderMoveTimer := by
  unfold checkLevelComplete
  rw [if_pos h]
  exact ⟨rfl, rfl, rfl, rfl, rfl, rfl, rfl, rfl, rfl, rfl⟩

/-- C10 witness: the preservation evaluated on the concrete cleared-wave
state. -/
theorem c10_level_complete_preserves_rest_witness :
    (checkLevelComplete clearedWaveState).score = clearedWaveState.score ∧
    (checkLevelComplete clearedWaveState).lives = clearedWaveState.lives ∧
    (checkLevelComplete clearedWaveState).player = clearedWaveState.player := by
  have h := c10_level_complete_preserves_rest clearedWaveState (by decide)
  exact ⟨h.1, h.2.1, h.2.2.2.1⟩

/-! ### Score and high-score tracking (claim C7) -/

@[simp] theorem initGame_score (s : GameState) : (initGame s).score = 0 := rfl

theorem gpMove_highScore (inp : Input) (s : GameState) :
    (gpMove inp s).highScore = s.highScore := by
  unfold gpMove
  split
  · rw [startGame_highScore]
    split <;> rfl
  · split
    · rw [startGame_highScore]
      split <;> rfl
    · rfl

theorem gpMove_score (inp : Input) (s : GameState) :
    (gpMove inp s).score = s.score := by
  unfold gpMove
  split
  · rw [startGame_score]
    split <;> rfl
  · split
    · rw [startGame_score]
      split <;> rfl
    · rfl

theorem gpMove_gameOver (inp : Input) (s : GameState) :
    (gpMove inp s).gameOver = s.gameOver := by
  unfold gpMove
  split
  · rw [startGame_gameOver]
    split <;> rfl
  · split
    · rw [startGame_gameOver]
      split <;> rfl
    · rfl

theorem gpShootStep_highScore (inp : Input) (s : GameState) :
    (gpShootStep inp s).highScore = s.highScore := by
  unfold gpShootStep
  split
  · rw [startGame_highScore]
    split
    · rw [shootBullet_highScore]
    · rfl
  · rfl

theorem gpShootStep_score (inp : Input) (s : GameState) :
    (gpShootStep inp s).score = s.score := by
  unfold gpShootStep
  split
  · rw [startGame_score]
    split
    · rw [shootBullet_score]
    · rfl
  · rfl

theorem gpShootStep_gameOver (inp : Input) (s : GameState) :
    (gpShootStep inp s).gameOver = s.gameOver := by
  unfold gpShootStep
  split
  · rw [startGame_gameOver]
    split
    · rw [shootBullet_gameOver]
    · rfl
  · rfl

theorem gpPauseStep_highScore (inp : Input) (s : GameState) :
    (gpPauseStep inp s).highScore = s.highScore := by
  unfold gpPauseStep
  split
  · rw [togglePause_highScore]
  · rfl

theorem gpPauseStep_score (inp : Input) (s : GameState) :
    (gpPauseStep inp s).score = s.score := by
  unfold gpPauseStep
  split
  · rw [togglePause_score]
  · rfl

theorem gpPauseStep_gameOver (inp : Input) (s : GameState) :
    (gpPauseStep inp s).gameOver = s.gameOver := by
  unfold gpPauseStep
  split
  · rw [togglePause_gameOver]
  · rfl

theorem gpRestartStep_highScore (inp : Input) (s : GameState) :
    (gpRestartStep inp s).highScore = s.highScore := by
  unfold gpRestartStep
  split
  · split
    · rw [initGame_highScore]
    · rfl
  · rfl

theorem gpRestartStep_score_cases (inp : Input) (s : GameState) :
    (gpRestartStep inp s).score = s.score ∨ (gpRestartStep inp s).score = 0 := by
  unfold gpRestartStep
  split
  · split
    · exact Or.inr rfl
    · exact Or.inl rfl
  · exact Or.inl rfl

theorem gpRestartStep_score_of (inp : Input) (s : GameState)
    (h : inp.gpRestart = false ∨ s.gameOver = false) :
    (gpRestartStep inp s).score = s.score := by
  unfold gpRestartStep
  rcases h with h | h
  · rw [h]
    rfl
  · rw [h]
    split <;> rfl

theorem kbStart_highScore (s : GameState) :
    (kbStart s).highScore = s.highScore := by
  unfold kbStart; split <;> rfl

theorem kbStart_score (s : GameState) : (kbStart s).score = s.score := by
  unfold kbStart; split <;> rfl

theorem kbLeft_highScore (dir : Int) (s : GameState) :
    (kbLeft dir s).highScore = s.highScore := by
  unfold kbLeft; split <;> rfl

theorem kbLeft_score (dir : Int) (s : GameState) :
    (kbLeft dir s).score = s.score := by
  unfold kbLeft; split <;> rfl

theorem kbRight_highScore (dir : Int) (s : GameState) :
    (kbRight dir s).highScore = s.highScore := by
  unfold kbRight; split <;> rfl

theorem kbRight_score (dir : Int) (s : GameState) :
    (kbRight dir s).score = s.score := by
  unfold kbRight; split <;> rfl

theorem kbMove_highScore (dir : Int) (s : GameState) :
    (kbMove dir s).highScore = s.highScore := by
  unfold kbMove
  split
  · rw [kbRight_highScore, kbLeft_highScore, kbStart_highScore]
  · rfl

theorem kbMove_score (dir : Int) (s : GameState) :
    (kbMove dir s).score = s.score := by
  unfold kbMove
  split
  · rw [kbRight_score, kbLeft_score, kbStart_score]
  · rfl

theorem handleGamepadInput_highScore (inp : Input) (s : GameState) :
    (handleGamepadInput inp s).highScore = s.highScore := by
  unfold handleGamepadInput
  split
  · rfl
  · rw [gpRestartStep_highScore, gpPauseStep_highScore, gpShootStep_highScore,
        gpMove_highScore]

theorem handleGamepadInput_score_cases (inp : Input) (s : GameState) :
    (handleGamepadInput inp s).score = s.score ∨
    (handleGamepadInput inp s).score = 0 := by
  unfold handleGamepadInput
  split
  · exact Or.inl rfl
  · rcases gpRestartStep_score_cases inp
        (gpPauseStep inp (gpShootStep inp (gpMove inp s))) with h | h
    · left
      rw [h, gpPauseStep_score, gpShootStep_score, gpMove_score]
    · exact Or.inr h

theorem handleGamepadInput_score_of_no_restart (inp : Input) (s : GameState)
    (h : (s.gameOver && inp.connected && inp.gpRestart) = false) :
    (handleGamepadInput inp s).score = s.score := by
  unfold handleGamepadInput
  split
  · rfl
  · rename_i hcon
    have hcon' : inp.connected = true := by
      revert hcon
      cases inp.connected <;> simp
    have h2 : inp.gpRestart = false ∨ s.gameOver = false := by
      cases hgo : s.gameOver with
      | false => exact Or.inr rfl
      | true =>
        rw [hgo, hcon'] at h
        exact Or.inl (by simpa using h)
    have hgo3 : (gpPauseStep inp (gpShootStep inp (gpMove inp s))).gameOver =
        s.gameOver := by
      rw [gpPauseStep_gameOver, gpShootStep_gameOver, gpMove_gameOver]
    rw [gpRestartStep_score_of inp _ (by rw [hgo3]; exact h2),
        gpPauseStep_score, gpShootStep_score, gpMove_score]

theorem frameInput_highScore (inp : Input) (s : GameState) :
    (frameInput inp s).highScore = s.highScore := by
  unfold frameInput
  rw [kbMove_highScore, handleGamepadInput_highScore]

theorem frameInput_score_cases (inp : Input) (s : GameState) :
    (frameInput inp s).score = s.score ∨ (frameInput inp s).score = 0 := by
  unfold frameInput
  rw [kbMove_score]
  exact handleGamepadInput_score_cases inp s

theorem frameInput_score_of_no_restart (inp : Input) (s : GameState)
    (h : (s.gameOver && inp.connected && inp.gpRestart) = false) :
    (frameInput inp s).score = s.score := by
  unfold frameInput
  rw [kbMove_score]
  exact handleGamepadInput_score_of_no_restart inp s h

theorem simulate_highScore (dt : Int) (rand : Nat) (s : GameState) :
    (simulate dt rand s).highScore =
      max s.highScore (simulate dt rand s).score := by
  unfold simulate
  rw [highScoreStep_highScore, highScoreStep_score]
  congr 1
  simp

theorem simulate_score_ge (dt : Int) (rand : Nat) (s : GameState) :
    s.score ≤ (simulate dt rand s).score := by
  unfold simulate
  rw [highScoreStep_score, checkLevelComplete_score]
  have h := updateBullets_score_le
      (enemyShootStep dt rand (moveInvaders dt (cooldownStep dt s)))
  simpa using h

theorem step_highScore_eq (e : Event) {s : GameState} (h : ScoreInv s) :
    (step s e).highScore = max s.highScore (step s e).score := by
  cases e with
  | frame dt inp =>
    show (update dt inp s).highScore = max s.highScore (update dt inp s).score
    unfold update
    dsimp only
    split
    · rw [frameInput_highScore]
      rcases frameInput_score_cases inp s with hsc | hsc
      · rw [hsc]
        exact (Nat.max_eq_left h).symm
      · rw [hsc]
        exact (Nat.max_eq_left (Nat.zero_le _)).symm
    · rw [simulate_highScore, frameInput_highScore]
  | keyShoot =>
    dsimp only [step]
    rw [startGame_highScore, startGame_score]
    split
    · rw [shootBullet_highScore, shootBullet_score]
      exact (Nat.max_eq_left h).symm
    · exact (Nat.max_eq_left h).symm
  | keyPauseToggle =>
    dsimp only [step]
    rw [togglePause_highScore, togglePause_score]
    exact (Nat.max_eq_left h).symm
  | keyRestart =>
    dsimp only [step]
    split
    · rw [initGame_highScore, initGame_score]
      exact (Nat.max_eq_left (Nat.zero_le _)).symm
    · exact (Nat.max_eq_left h).symm

theorem scoreInv_step (e : Event) {s : GameState} (h : ScoreInv s) :
    ScoreInv (step s e) := by
  show (step s e).score ≤ (step s e).highScore
  rw [step_highScore_eq e h]
  exact Nat.le_max_right _ _

theorem scoreInv_runEvents (es : List Event) {s : GameState}
    (h : ScoreInv s) : ScoreInv (runEvents s es) := by
  induction es generalizing s with
  | nil => exact h
  | cons e es ih => exact ih (scoreInv_step e h)

theorem traceHigh_ge_score (s : GameState) (es : List Event) :
    s.score ≤ traceHigh s es := by
  cases es with
  | nil => exact le_refl _
  | cons e es => exact Nat.le_max_left _ _

theorem runEvents_highScore_eq (es : List Event) :
    ∀ s : GameState, ScoreInv s →
      (runEvents s es).highScore = max s.highScore (traceHigh s es) := by
  induction es with
  | nil =>
    intro s h
    show s.highScore = max s.highScore s.score
    exact (Nat.max_eq_left h).symm
  | cons e es ih =>
    intro s h
    show (runEvents (step s e) es).highScore =
      max s.highScore (traceHigh s (e :: es))
    rw [ih (step s e) (scoreInv_step e h), step_highScore_eq e h]
    have hx : (step s e).score ≤ traceHigh (step s e) es :=
      traceHigh_ge_score (step s e) es
    have e1 : max (max s.highScore (step s e).score) (traceHigh (step s e) es)
        = max s.highScore (traceHigh (step s e) es) := by
      rw [max_assoc, Nat.max_eq_right hx]
    have e2 : max s.highScore (traceHigh s (e :: es))
        = max s.highScore (traceHigh (step s e) es) := by
      show max s.highScore (max s.score (traceHigh (step s e) es)) = _
      rw [← max_assoc, Nat.max_eq_left h]
    rw [e1, e2]

theorem step_score_mono (e : Event) {s : GameState}
    (h : isRestartEvent s e = false) : s.score ≤ (step s e).score := by
  cases e with
  | frame dt inp =>
    have h' : (s.gameOver && inp.connected && inp.gpRestart) = false := h
    show s.score ≤ (update dt inp s).score
    unfold update
    dsimp only
    have hfi : (frameInput inp s).score = s.score :=
      frameInput_score_of_no_restart inp s h'
    split
    · rw [hfi]
    · calc s.score = (frameInput inp s).score := hfi.symm
        _ ≤ _ := simulate_score_ge dt inp.rand _
  | keyShoot =>
    have heq : (step s .keyShoot).score = s.score := by
      dsimp only [step]
      rw [startGame_score]
      split
      · rw [shootBullet_score]
      · rfl
    exact le_of_eq heq.symm
  | keyPauseToggle => exact le_of_eq (togglePause_score s).symm
  | keyRestart =>
    have h' : s.gameOver = false := h
    dsimp only [step]
    rw [h']
    exact le_refl _

/-! ### Claim C7 -/

/-- C7: the high score equals the maximum score observed along any event
sequence from a fresh game (`traceHigh` is exactly that running maximum),
it never decreases across any further event — including a restart, which
resets the score but not the high score — and the score itself is
non-decreasing across every event that is not a restart. -/
theorem c7_highscore_running_max :
    (∀ es : List Event,
        (runEvents mkInitial es).highScore = traceHigh mkInitial es) ∧
    (∀ (es : List Event) (e : Event),
        (runEvents mkInitial es).highScore ≤
          (step (runEvents mkInitial es) e).highScore) ∧
    (∀ (es : List Event) (e : Event),
        isRestartEvent (runEvents mkInitial es) e = false →
        (runEvents mkInitial es).score ≤
          (step (runEvents mkInitial es) e).score) := by
  have h0 : ScoreInv mkInitial := Nat.le_refl 0
  refine ⟨?_, ?_, ?_⟩
  · intro es
    rw [runEvents_highScore_eq es mkInitial h0]
    exact Nat.max_eq_right (Nat.zero_le _)
  · intro es e
    rw [step_highScore_eq e (scoreInv_runEvents es h0)]
    exact Nat.le_max_left _ _
  · intro es e hre
    exact step_score_mono e hre

/-- C7 witness: the third conjunct instantiated at the concrete
two-key-press run and a quiet frame (not a restart), and the first two at
the same concrete inputs. -/
theorem c7_highscore_running_max_witness :
    (runEvents mkInitial pauseEvents).highScore = traceHigh mkInitial pauseEvents ∧
    (runEvents mkInitial pauseEvents).highScore ≤
      (step (runEvents mkInitial pauseEvents) (quietFrame 16 0)).highScore ∧
    (runEvents mkInitial pauseEvents).score ≤
      (step (runEvents mkInitial pauseEvents) (quietFrame 16 0)).score :=
  ⟨c7_highscore_running_max.1 pauseEvents,
   c7_highscore_running_max.2.1 pauseEvents (quietFrame 16 0),
   c7_highscore_running_max.2.2 pauseEvents (quietFrame 16 0) (by decide)⟩

/-! ### Claim C9 -/

/-- C9: the phase flags exclude illegal combinations in every reachable
state: paused implies started (so "paused while not-started" is
unreachable), and paused and game-over are never both set. -/
theorem c9_phase_flags_exclusive (es : List Event) :
    ((runEvents mkInitial es).paused = true →
      (runEvents mkInitial es).started = true) ∧
    ¬((runEvents mkInitial es).paused = true ∧
      (runEvents mkInitial es).gameOver = true) := by
  have h := stateInv_reachable es
  refine ⟨h.2.2.2.2.1, ?_⟩
  rintro ⟨hp, hg⟩
  rcases h.2.2.2.2.2 with h6 | h6
  · rw [hp] at h6
    exact Bool.noConfusion h6
  · rw [hg] at h6
    exact Bool.noConfusion h6

/-- C9 witness: the exclusivity applied to the concrete run that starts and
pauses the game, discharging the paused-implies-started implication there. -/
theorem c9_phase_flags_exclusive_witness :
    (runEvents mkInitial pauseEvents).started = true ∧
    ¬((runEvents mkInitial pauseEvents).paused = true ∧
      (runEvents mkInitial pauseEvents).gameOver = true) :=
  ⟨(c9_phase_flags_exclusive pauseEvents).1 (by decide),
   (c9_phase_flags_exclusive pauseEvents).2⟩

end SpaceInvaders
